import Mathlib

/-!
Verification of the WiGLE Matrix bot core (wiglebot.py): a shallow embedding
of the API-client fetch operations, the response formatters and the command
router, together with theorems settling the specification claims.

Modelling conventions:
* Machine-level HTTP is abstracted as `HttpResult β`: either an exception
  raised during the request or body parse (`exn`, carrying `str(e)`), or a
  status code with a typed body.  JSON dictionaries become structures whose
  optionally-present keys are `Option` fields.
* Python `str.split(sep)` is `splitOnChar`, `str.split()` is `pyTokens`,
  `str.strip()` is `trimChars`, the substring test `pat in s` is `pyIn`,
  `"{:,}".format(n)` is `commaFormat`, `inflect.engine().ordinal(i)` is
  `ordinal`, and `datetime.strptime(s, "%Y%m%d")` is `parseYmdChars`, which
  follows the stdlib _strptime regex
  `\d\d\d\d (1[0-2]|0[1-9]|[1-9]) (3[01]|[12]\d|0[1-9]|[1-9])`
  with alternation preference order, the trailing unconverted-data check and
  the calendar validation done by the datetime constructor.
* `.lower()` is `pyLower`, mapping `Char.toLower` over the characters (the
  usernames and group names the bot compares are ASCII).
-/

namespace WigleBot

set_option maxRecDepth 100000

/-- The apostrophe character, used inside the bot output literals. -/
def sq : String := String.singleton (Char.ofNat 39)

/-- Python `pat in s` substring containment. -/
def pyIn (pat s : String) : Bool := decide (pat.data <:+: s.data)

/-- Python `s.lower()` (the names the bot compares are ASCII). -/
def pyLower (s : String) : String := String.mk (s.data.map Char.toLower)

/-- Splitting a character list at every character satisfying `p`, keeping
empty pieces. -/
def splitOnPred (p : Char → Bool) : List Char → List (List Char)
  | [] => [[]]
  | c :: cs =>
    if p c then [] :: splitOnPred p cs
    else
      match splitOnPred p cs with
      | [] => [[c]]
      | h :: t => (c :: h) :: t

/-- Python `s.split()` with no separator: split on whitespace, dropping
empty pieces. -/
def pyTokens (cs : List Char) : List String :=
  ((splitOnPred Char.isWhitespace cs).filter fun p => !p.isEmpty).map String.mk

/-- Python `s.strip()`: whitespace removed from both ends. -/
def trimChars (cs : List Char) : List Char :=
  ((cs.dropWhile Char.isWhitespace).reverse.dropWhile Char.isWhitespace).reverse

/-- Python `s.split(sep)` for a one-character separator, on the character
list of the string: every occurrence separates, empty pieces are kept. -/
def splitOnChar (sep : Char) : List Char → List (List Char)
  | [] => [[]]
  | c :: cs =>
    if c = sep then [] :: splitOnChar sep cs
    else
      match splitOnChar sep cs with
      | [] => [[c]]
      | h :: t => (c :: h) :: t

/-- Insert a comma after every third character; used on reversed digit
lists by `commaFormat`. -/
def groupRev : List Char → List Char
  | a :: b :: c :: d :: rest => a :: b :: c :: ',' :: groupRev (d :: rest)
  | xs => xs

/-- Python `"{:,}".format(n)`: decimal digits with grouping separators. -/
def commaFormat (n : Nat) : String :=
  String.mk (groupRev (toString n).data.reverse).reverse

/-- Ordinal suffix, as computed by `inflect.engine().ordinal`:
`th` for 11..13 mod 100, otherwise by the last digit. -/
def ordinalSuffix (n : Nat) : String :=
  if n % 100 / 10 = 1 then "th"
  else if n % 10 = 1 then "st"
  else if n % 10 = 2 then "nd"
  else if n % 10 = 3 then "rd"
  else "th"

/-- `inflect.engine().ordinal(n)`. -/
def ordinal (n : Nat) : String := toString n ++ ordinalSuffix n

/-- Numeric value of a decimal digit character. -/
def digitVal (c : Char) : Nat := c.toNat - 48

/-- The month alternatives of the `_strptime` regex group
`(1[0-2]|0[1-9]|[1-9])`, in preference order, each with the unconsumed
remainder. -/
def monthAlts (cs : List Char) : List (Nat × List Char) :=
  (match cs with
   | '1' :: c :: r => if '0' ≤ c ∧ c ≤ '2' then [(10 + digitVal c, r)] else []
   | _ => []) ++
  (match cs with
   | '0' :: c :: r => if '1' ≤ c ∧ c ≤ '9' then [(digitVal c, r)] else []
   | _ => []) ++
  (match cs with
   | c :: r => if '1' ≤ c ∧ c ≤ '9' then [(digitVal c, r)] else []
   | _ => [])

/-- The day alternatives of the `_strptime` regex group
`(3[01]|[12]\d|0[1-9]|[1-9])`, in preference order. -/
def dayAlts (cs : List Char) : List (Nat × List Char) :=
  (match cs with
   | '3' :: c :: r => if '0' ≤ c ∧ c ≤ '1' then [(30 + digitVal c, r)] else []
   | _ => []) ++
  (match cs with
   | c :: c2 :: r =>
     if ('1' ≤ c ∧ c ≤ '2') ∧ c2.isDigit then [(10 * digitVal c + digitVal c2, r)] else []
   | _ => []) ++
  (match cs with
   | '0' :: c :: r => if '1' ≤ c ∧ c ≤ '9' then [(digitVal c, r)] else []
   | _ => []) ++
  (match cs with
   | c :: r => if '1' ≤ c ∧ c ≤ '9' then [(digitVal c, r)] else []
   | _ => [])

/-- Backtracking match of the month-then-day part of the `%Y%m%d` regex:
the first month alternative under which the day group matches wins, and the
day group takes its own first matching alternative. -/
def regexMD (cs : List Char) : Option (Nat × Nat × List Char) :=
  (monthAlts cs).findSome? fun mr =>
    ((dayAlts mr.2).head?).map fun dr => (mr.1, dr.1, dr.2)

/-- Gregorian leap-year rule, as used by `datetime`. -/
def leapYear (y : Nat) : Bool :=
  y % 4 = 0 && (y % 100 != 0 || y % 400 = 0)

/-- Number of days in a month, as validated by the `datetime` constructor. -/
def daysInMonth (y m : Nat) : Nat :=
  if m = 2 then (if leapYear y then 29 else 28)
  else if m = 4 ∨ m = 6 ∨ m = 9 ∨ m = 11 then 30
  else 31

/-- `datetime.strptime(s, "%Y%m%d")`, returning the (year, month, day) or
`none` where the Python call raises `ValueError`: four decimal digits of
year, then the regex month and day groups, then the unconverted-data check,
then the `datetime(y, m, d)` range validation. -/
def parseYmdChars (cs : List Char) : Option (Nat × Nat × Nat) :=
  match cs with
  | c1 :: c2 :: c3 :: c4 :: rest =>
    if c1.isDigit && c2.isDigit && c3.isDigit && c4.isDigit then
      let y := ((digitVal c1 * 10 + digitVal c2) * 10 + digitVal c3) * 10 + digitVal c4
      match regexMD rest with
      | some (m, d, leftover) =>
        if leftover = [] then
          if 1 ≤ y ∧ d ≤ daysInMonth y m then some (y, m, d) else none
        else none
      | none => none
    else none
  | _ => none

/-- English month names, for `strftime("%B ...")`. -/
def monthName (m : Nat) : String :=
  match m with
  | 1 => "January"
  | 2 => "February"
  | 3 => "March"
  | 4 => "April"
  | 5 => "May"
  | 6 => "June"
  | 7 => "July"
  | 8 => "August"
  | 9 => "September"
  | 10 => "October"
  | 11 => "November"
  | _ => "December"

/-- Zero-padded two-digit rendering, for `strftime("%d")`. -/
def pad2 (n : Nat) : String := if n < 10 then "0" ++ toString n else toString n

/-- `strftime("%B %d, %Y")` applied to a parsed date, propagating a parse
failure. -/
def renderYmd : Option (Nat × Nat × Nat) → Option String
  | some (y, m, d) => some (monthName m ++ " " ++ pad2 d ++ ", " ++ toString y)
  | none => none

/-- The date-reformatting block of `create_user_message` applied to one
field: `d, _ = s.split("-")` (raising unless exactly two pieces), then
`strptime(d, "%Y%m%d")`, then `strftime("%B %d, %Y")`.  `none` models a
raised exception. -/
def formatEventDate (s : String) : Option String :=
  match splitOnChar '-' s.data with
  | [dateCs, _] => renderYmd (parseYmdChars dateCs)
  | _ => none

/-! ## Data model -/

/-- Outcome of `session.get` plus `response.json()`: either an exception
raised during the request or parse (carrying `str(e)`), or a status code
together with the decoded body. -/
inductive HttpResult (β : Type) where
  | exn (detail : String)
  | resp (status : Nat) (body : β)
deriving DecidableEq

/-- A dictionary returned by a fetch operation: either the (validated)
payload dictionary, or the `{"success": False, "message": m}` error
dictionary. -/
inductive FetchDict (β : Type) where
  | ok (d : β)
  | err (message : String)
deriving DecidableEq

/-- The `statistics` sub-dictionary of the user-stats body.  Keys that the
code reads unconditionally are plain fields (a missing key would raise, a
case none of the claims exercises); `userName` is optional because the code
tests its presence.  `discoveredWiFiGPSPercent` is interpolated verbatim
(no grouping), so its rendered form is kept as a string. -/
structure Statistics where
  userName : Option String
  prevRank : Nat
  prevMonthRank : Nat
  eventMonthCount : Nat
  eventPrevMonthCount : Nat
  discoveredWiFiGPS : Nat
  discoveredWiFiGPSPercent : String
  discoveredWiFi : Nat
  discoveredCellGPS : Nat
  discoveredCell : Nat
  discoveredBtGPS : Nat
  discoveredBt : Nat
  totalWiFiLocations : Nat
  last : String
  first : String
deriving DecidableEq

/-- The JSON body of `stats/user`. -/
structure UserBody where
  success : Option Bool
  statistics : Option Statistics
  user : String
  rank : Nat
  monthRank : Nat
  imageBadgeUrl : Option String
deriving DecidableEq

/-- An entry of the `groups` array of `stats/group`. -/
structure Group where
  groupName : String
  groupId : String
  discovered : Nat
deriving DecidableEq

/-- The JSON body of `stats/group`. -/
structure GroupBody where
  success : Option Bool
  groups : Option (List Group)
  message : Option String
deriving DecidableEq

/-- An entry of the `users` array of `group/groupMembers`. -/
structure UserEntry where
  username : String
  discovered : Nat
  status : String
deriving DecidableEq

/-- The JSON body of `group/groupMembers`.  `hasOtherKeys` records whether
the dictionary holds keys besides `users`, so that Python dict truthiness
(`if group_data:`) is captured. -/
structure MembersBody where
  users : Option (List UserEntry)
  hasOtherKeys : Bool
deriving DecidableEq

/-- An entry of the `results` array of `stats/standings`. -/
structure StandingEntry where
  userName : String
  discoveredWiFiGPS : Nat
  eventMonthCount : Nat
deriving DecidableEq

/-- The JSON body of `stats/standings`. -/
structure StandingsBody where
  success : Option Bool
  results : Option (List StandingEntry)
deriving DecidableEq

/-- Result dictionary of `fetch_wigle_id`: the
`{"success": True, "groupId": ..., "url": ...}` dictionary or the error
dictionary. -/
inductive IdResult where
  | ok (groupId : String) (url : String)
  | err (message : String)
deriving DecidableEq

/-! ## ApiClient fetch operations -/

/-- `fetch_wigle_user_stats` after the HTTP layer: 404 and non-200 mapping,
the `success`/`statistics`/`userName` validation, the case-insensitive
username comparison, and the `nocache` suffix added to a non-empty badge
URL.  The `except` clause returns `{"success": False, "message": str(e)}`. -/
def fetch_wigle_user_stats (username : String) (ts : Nat) :
    HttpResult UserBody → FetchDict UserBody
  | .exn e => .err e
  | .resp status d =>
    if status = 404 then .err ("User not found.")
    else if status ≠ 200 then .err ("HTTP error " ++ toString status)
    else
      match d.success, d.statistics with
      | some true, some st =>
        match st.userName with
        | some un =>
          if pyLower un = pyLower username then
            .ok { d with imageBadgeUrl :=
                    match d.imageBadgeUrl with
                    | none => none
                    | some u => if u = "" then some u
                                else some (u ++ "?nocache=" ++ toString ts) }
          else .err ("User not found.")
        | none => .err ("Invalid data received or user not found.")
      | _, _ => .err ("Invalid data received or user not found.")

/-- `fetch_wigle_group_rank` after the HTTP layer. -/
def fetch_wigle_group_rank : HttpResult GroupBody → FetchDict GroupBody
  | .exn e => .err e
  | .resp status d =>
    if status ≠ 200 then .err ("HTTP error " ++ toString status)
    else
      match d.success, d.groups with
      | some true, some _ => .ok d
      | _, _ => .err ("No group data available.")

/-- The loop of `fetch_wigle_id`: first group whose name matches the wanted
name case-insensitively. -/
def findGroup (name : String) : List Group → Option Group
  | [] => none
  | g :: gs =>
    if pyLower g.groupName = pyLower name then some g else findGroup name gs

/-- `fetch_wigle_id` after the HTTP layer.  On 200 with truthy `success`
the group list (`data.get("groups", [])`) is scanned; the first match
yields the member-listing URL.  On falsy `success` the code reads
`data["message"]`; a missing key raises `KeyError("message")`, which the
enclosing `except` turns into `str(e) = "'message'"`. -/
def fetch_wigle_id (group_name : String) : HttpResult GroupBody → IdResult
  | .exn e => .err e
  | .resp status d =>
    if status ≠ 200 then .err ("HTTP error " ++ toString status)
    else if d.success = some true then
      match findGroup group_name (d.groups.getD []) with
      | some g =>
        .ok g.groupId
          ("https://api.wigle.net/api/v2/group/groupMembers?groupid=" ++ g.groupId)
      | none => .err ("No group named " ++ sq ++ group_name ++ sq ++ " found.")
    else
      match d.message with
      | some m => .err m
      | none => .err (sq ++ "message" ++ sq)

/-- `fetch_user_rank` after the HTTP layer: any non-200 status or exception
yields `None`; a 200 body is returned as-is. -/
def fetch_user_rank : HttpResult MembersBody → Option MembersBody
  | .exn _ => none
  | .resp status d => if status ≠ 200 then none else some d

/-- The `results` filter shared by the standings fetches:
`[r for r in results if r["userName"] != "anonymous"]`. -/
def dropAnonymous (rs : List StandingEntry) : List StandingEntry :=
  rs.filter fun r => r.userName != "anonymous"

/-- `fetch_wigle_alltime_rank` after the HTTP layer: on 200 with truthy
`success` and a `results` key, the anonymous entries are filtered out of
`data["results"]` and the mutated body is returned. -/
def fetch_wigle_alltime_rank : HttpResult StandingsBody → FetchDict StandingsBody
  | .exn e => .err e
  | .resp status d =>
    if status ≠ 200 then .err ("HTTP error " ++ toString status)
    else
      match d.success, d.results with
      | some true, some rs => .ok { d with results := some (dropAnonymous rs) }
      | _, _ => .err ("No rank data available.")

/-- `fetch_wigle_month_rank` after the HTTP layer; same shape as the
all-time fetch. -/
def fetch_wigle_month_rank : HttpResult StandingsBody → FetchDict StandingsBody
  | .exn e => .err e
  | .resp status d =>
    if status ≠ 200 then .err ("HTTP error " ++ toString status)
    else
      match d.success, d.results with
      | some true, some rs => .ok { d with results := some (dropAnonymous rs) }
      | _, _ => .err ("No rank data available.")

/-! ## ResponseFormatter -/

/-- The `for i, x in enumerate(xs, start=i0): out += line(i, x)` loops of
the ranking formatters, as the list of appended lines. -/
def rankLines {α : Type} (line : Nat → α → String) : Nat → List α → List String
  | _, [] => []
  | i, x :: xs => line i x :: rankLines line (i + 1) xs

/-- One line of `format_group_rankings`. -/
def groupLine (i : Nat) (g : Group) : String :=
  ordinal i ++ ": " ++ g.groupName ++ " | Total: " ++ commaFormat g.discovered ++ "\n"

/-- The ranked lines of `format_group_rankings`: the first ten groups,
enumerated from 1. -/
def groupRankLines (groups : List Group) : List String :=
  rankLines groupLine 1 (groups.take 10)

/-- `format_group_rankings`. -/
def format_group_rankings (groups : List Group) : String :=
  "**WiGLE Group Rankings:**\n" ++ String.join (groupRankLines groups)

/-- One line of `format_user_rankings`. -/
def userLine (i : Nat) (u : UserEntry) : String :=
  ordinal i ++ ": " ++ u.username ++ " | Total: " ++ commaFormat u.discovered ++ "\n"

/-- The entries `format_user_rankings` displays: the status filter
(`"L" not in user["status"]`) applied first, then the `[:10]` truncation. -/
def displayedUsers (users : List UserEntry) : List UserEntry :=
  (users.filter fun u => !pyIn ("L") u.status).take 10

/-- `format_user_rankings`. -/
def format_user_rankings (users : List UserEntry) (group_name : String) : String :=
  "**User Rankings for " ++ sq ++ group_name ++ sq ++ ":**\n"
    ++ String.join (rankLines userLine 1 (displayedUsers users))

/-- One line of `format_alltime_rankings`. -/
def alltimeLine (i : Nat) (r : StandingEntry) : String :=
  ordinal i ++ ": " ++ r.userName ++ " | Total: " ++ commaFormat r.discoveredWiFiGPS ++ "\n"

/-- The ranked lines of `format_alltime_rankings`. -/
def alltimeRankLines (results : List StandingEntry) : List String :=
  rankLines alltimeLine 1 (results.take 10)

/-- `format_alltime_rankings`. -/
def format_alltime_rankings (results : List StandingEntry) : String :=
  "**WiGLE All-Time User Rankings:**\n" ++ String.join (alltimeRankLines results)

/-- One line of `format_monthly_rankings`. -/
def monthlyLine (i : Nat) (r : StandingEntry) : String :=
  ordinal i ++ ": " ++ r.userName ++ " | Total: " ++ commaFormat r.eventMonthCount ++ "\n"

/-- `format_monthly_rankings`. -/
def format_monthly_rankings (results : List StandingEntry) : String :=
  "**WiGLE Monthly User Rankings:**\n"
    ++ String.join (rankLines monthlyLine 1 (results.take 10))

/-- The f-string assembled at the end of `create_user_message`, given the
two already-reformatted event dates. -/
def userMessageText (response : UserBody) (st : Statistics)
    (lastF firstF : String) : String :=
  "**WiGLE User Stats for " ++ sq ++ response.user ++ sq ++ "**\n"
  ++ "Username: " ++ response.user ++ "\n"
  ++ "Rank: " ++ commaFormat response.rank ++ "\n"
  ++ "Previous Rank: " ++ commaFormat st.prevRank ++ "\n"
  ++ "Monthly Rank: " ++ commaFormat response.monthRank ++ "\n"
  ++ "Last Month" ++ sq ++ "s Rank: " ++ commaFormat st.prevMonthRank ++ "\n"
  ++ "Events This Month: " ++ commaFormat st.eventMonthCount ++ "\n"
  ++ "Last Month" ++ sq ++ "s Events: " ++ commaFormat st.eventPrevMonthCount ++ "\n"
  ++ "Discovered WiFi GPS: " ++ commaFormat st.discoveredWiFiGPS ++ "\n"
  ++ "Discovered WiFi GPS Percent: " ++ st.discoveredWiFiGPSPercent ++ "\n"
  ++ "Discovered WiFi: " ++ commaFormat st.discoveredWiFi ++ "\n"
  ++ "Discovered Cell GPS: " ++ commaFormat st.discoveredCellGPS ++ "\n"
  ++ "Discovered Cell: " ++ commaFormat st.discoveredCell ++ "\n"
  ++ "Discovered BT GPS: " ++ commaFormat st.discoveredBtGPS ++ "\n"
  ++ "Discovered BT: " ++ commaFormat st.discoveredBt ++ "\n"
  ++ "Total WiFi Locations: " ++ commaFormat st.totalWiFiLocations ++ "\n"
  ++ "Last Event: " ++ lastF ++ "\n"
  ++ "First Ever Event: " ++ firstF ++ "\n"

/-- The date-reformatting and assembly part of `create_user_message`,
once the `statistics` object is in hand. -/
def assembleMessage (response : UserBody) (st : Statistics) : Option String :=
  match formatEventDate st.last, formatEventDate st.first with
  | some lastF, some firstF => some (userMessageText response st lastF firstF)
  | _, _ => none

/-- `create_user_message`: reads `response["statistics"]` and the other
fields, reformats the two event dates, and assembles the message.  `none`
models an uncaught exception (missing `statistics`, a date field without
exactly one hyphen, or a date portion `strptime` rejects). -/
def create_user_message (response : UserBody) : Option String :=
  match response.statistics with
  | none => none
  | some st => assembleMessage response st

/-- `get_help_message`. -/
def helpMessage : String :=
  "**Command List**\n"
  ++ "`!user <username>` - Get stats for a WiGLE user.\n"
  ++ "`!grouprank` - Get WiGLE group rankings.\n"
  ++ "`!userrank <groupname>` - Get WiGLE user rankings for a group.\n"
  ++ "`!alltime` - Get WiGLE All-Time user rankings.\n"
  ++ "`!monthly` - Get WiGLE monthly user rankings.\n"
  ++ "`!help` - Shows this help message.\n"

/-! ## CommandRouter -/

/-- What `message_callback` does with one inbound message: nothing (no
prefix, or echo suppression), an uncaught `IndexError` from `parts[0]` on
an empty token list, an uncaught exception raised later in the handler, or
exactly one outbound message. -/
inductive CallbackResult where
  | ignored
  | indexError
  | raised
  | sent (message : String)
deriving DecidableEq

/-- The network responses one handler invocation can observe, keyed the
way the handlers request them, together with the `nocache` timestamp. -/
structure NetEnv where
  ts : Nat
  userStatsResp : String → HttpResult UserBody
  groupRankResp : HttpResult GroupBody
  groupIdResp : HttpResult GroupBody
  membersResp : String → HttpResult MembersBody
  alltimeResp : HttpResult StandingsBody
  monthlyResp : HttpResult StandingsBody

/-- The `user` branch of the dispatch chain. -/
def runUser (env : NetEnv) (username : String) : CallbackResult :=
  match fetch_wigle_user_stats username env.ts (env.userStatsResp username) with
  | .ok d =>
    match create_user_message d with
    | some m => .sent m
    | none => .raised
  | .err m => .sent m

/-- The `grouprank` branch. -/
def runGrouprank (env : NetEnv) : CallbackResult :=
  match fetch_wigle_group_rank env.groupRankResp with
  | .ok d => .sent (format_group_rankings (d.groups.getD []))
  | .err m => .sent m

/-- The `userrank` branch: resolve the group id, then fetch the member
list; `if group_data:` is dict truthiness. -/
def runUserrank (env : NetEnv) (group : String) : CallbackResult :=
  match fetch_wigle_id group env.groupIdResp with
  | .ok _ url =>
    match fetch_user_rank (env.membersResp url) with
    | some gd =>
      if gd.users.isSome || gd.hasOtherKeys then
        .sent (format_user_rankings (gd.users.getD []) group)
      else .sent ("Failed to fetch group data.")
    | none => .sent ("Failed to fetch group data.")
  | .err m => .sent m

/-- The `alltime` branch. -/
def runAlltime (env : NetEnv) : CallbackResult :=
  match fetch_wigle_alltime_rank env.alltimeResp with
  | .ok d => .sent (format_alltime_rankings (d.results.getD []))
  | .err m => .sent m

/-- The `monthly` branch. -/
def runMonthly (env : NetEnv) : CallbackResult :=
  match fetch_wigle_month_rank env.monthlyResp with
  | .ok d => .sent (format_monthly_rankings (d.results.getD []))
  | .err m => .sent m

/-- The literal fallback reply of the dispatch chain. -/
def unknownReply : String := "Unknown command. Type !help for available commands."

/-- The `if command == ... and args:` elif chain of `message_callback`,
after the verb has been lowercased. -/
def dispatchRun (env : NetEnv) (command : String) (args : List String) : CallbackResult :=
  if command = "user" ∧ args ≠ [] then runUser env (args.headD (""))
  else if command = "grouprank" then runGrouprank env
  else if command = "userrank" ∧ args ≠ [] then
    runUserrank env (String.intercalate (" ") args)
  else if command = "alltime" then runAlltime env
  else if command = "monthly" then runMonthly env
  else if command = "help" then .sent helpMessage
  else .sent unknownReply

/-- `message_callback` on one inbound message: echo suppression, the
prefix gate, `command_body = body[1:].strip()`, `command_parts =
command_body.split()`, the `parts[0]` index (an `IndexError` when no token
follows the prefix), lowercasing, and the dispatch chain. -/
def message_callback (env : NetEnv) (fromSelf : Bool) (body : String) : CallbackResult :=
  if fromSelf then .ignored
  else
    match body.data with
    | [] => .ignored
    | c0 :: rest =>
      if c0 = '!' then
        match pyTokens (trimChars rest) with
        | [] => .indexError
        | c :: args => dispatchRun env (pyLower c) args
      else .ignored

/-! ## Concrete payloads used by the witnesses -/

/-- Prefix test on strings, by their character lists. -/
def strPrefix (pre s : String) : Bool := decide (pre.data <+: s.data)

/-- Each line of a rank list starts with the ordinal of its 1-based
position followed by a colon, checked positionally from a start index. -/
def numberedFrom : Nat → List String → Bool
  | _, [] => true
  | i, l :: ls => strPrefix (ordinal i ++ ": ") l && numberedFrom (i + 1) ls

/-- An offline environment: every request raises. -/
def envEx : NetEnv where
  ts := 0
  userStatsResp := fun _ => HttpResult.exn ("offline")
  groupRankResp := HttpResult.exn ("offline")
  groupIdResp := HttpResult.exn ("offline")
  membersResp := fun _ => HttpResult.exn ("offline")
  alltimeResp := HttpResult.exn ("offline")
  monthlyResp := HttpResult.exn ("offline")

/-- A locked member entry (status containing `L`) ranked first. -/
def exLockedUser : UserEntry := { username := "mallory", discovered := 99, status := "PL" }

/-- An unlocked member entry. -/
def exPlainUser : UserEntry := { username := "bob", discovered := 3, status := "P" }

/-- A standings entry for the anonymous aggregate account. -/
def exAnon : StandingEntry :=
  { userName := "anonymous", discoveredWiFiGPS := 500, eventMonthCount := 5 }

/-- A named standings entry. -/
def exNamed : StandingEntry :=
  { userName := "carol", discoveredWiFiGPS := 400, eventMonthCount := 4 }

/-- A group that does not match the example queries. -/
def exGroupA : Group := { groupName := "Alpha Team", groupId := "20", discovered := 100 }

/-- A group matching the query `wigle` case-insensitively. -/
def exGroupB : Group := { groupName := "WiGLE", groupId := "42", discovered := 50 }

/-- A successful group-list body with two groups. -/
def exGroupBody : GroupBody :=
  { success := some true, groups := some [exGroupA, exGroupB], message := none }

/-- Well-formed example statistics: valid `YYYYMMDD-HHMMSS` dates. -/
def exStats : Statistics :=
  { userName := some ("alice"), prevRank := 2, prevMonthRank := 3
    eventMonthCount := 4, eventPrevMonthCount := 5
    discoveredWiFiGPS := 1234567, discoveredWiFiGPSPercent := "12.3"
    discoveredWiFi := 11, discoveredCellGPS := 12, discoveredCell := 13
    discoveredBtGPS := 14, discoveredBt := 15, totalWiFiLocations := 16
    last := "20240304-153000", first := "20200101-070707" }

/-- Well-formed example user-stats payload. -/
def exUserBody : UserBody :=
  { success := some true, statistics := some exStats, user := "alice"
    rank := 1, monthRank := 2, imageBadgeUrl := some ("https://wigle.net/badge.png") }

/-- Statistics whose `last` field has a seven-character date portion:
not an eight-digit `YYYYMMDD` date, yet accepted by `strptime` as
year 2024, month 3, day 04. -/
def exStatsSeven : Statistics :=
  { exStats with last := "2024304-153000" }

/-- Payload carrying `exStatsSeven`. -/
def exUserBodySeven : UserBody :=
  { exUserBody with statistics := some exStatsSeven }

/-! ## Helper lemmas -/

theorem data_append (s t : String) : (s ++ t).data = s.data ++ t.data := by
  cases s
  cases t
  rfl

theorem rankLines_length {α : Type} (line : Nat → α → String) :
    ∀ (xs : List α) (i : Nat), (rankLines line i xs).length = xs.length
  | [], _ => rfl
  | x :: xs, i => by
    simp only [rankLines, List.length_cons, rankLines_length line xs (i + 1)]

theorem numberedFrom_rankLines {α : Type} (line : Nat → α → String)
    (hline : ∀ i x, ∃ r, line i x = (ordinal i ++ ": ") ++ r) :
    ∀ (xs : List α) (i : Nat), numberedFrom i (rankLines line i xs) = true := by
  intro xs
  induction xs with
  | nil => intro i; rfl
  | cons x xs ih =>
    intro i
    obtain ⟨r, hr⟩ := hline i x
    simp only [rankLines, numberedFrom, hr, Bool.and_eq_true]
    refine ⟨?_, ih (i + 1)⟩
    simp only [strPrefix, decide_eq_true_eq, data_append]
    exact List.prefix_append _ _

theorem message_callback_cons (env : NetEnv) (c0 : Char) (rest : List Char)
    (body : String) (hpre : body.data = c0 :: rest) :
    message_callback env false body =
      if c0 = '!' then
        match pyTokens (trimChars rest) with
        | [] => CallbackResult.indexError
        | c :: args => dispatchRun env (pyLower c) args
      else .ignored := by
  simp only [message_callback]
  rw [if_neg (by decide), hpre]

theorem findGroup_first (name : String) :
    ∀ (gs : List Group) (i : Nat) (h : i < gs.length),
      pyLower (gs.get ⟨i, h⟩).groupName = pyLower name →
      (∀ j (hj : j < i), pyLower ((gs.get ⟨j, Nat.lt_trans hj h⟩).groupName) ≠ pyLower name) →
      findGroup name gs = some (gs.get ⟨i, h⟩) := by
  intro gs
  induction gs with
  | nil => intro i h; exact absurd h (Nat.not_lt_zero i)
  | cons g gs ih =>
    intro i h hm hb
    cases i with
    | zero =>
      have hm0 : pyLower g.groupName = pyLower name := hm
      simp only [findGroup]
      rw [if_pos hm0]
      rfl
    | succ i =>
      have hg : pyLower g.groupName ≠ pyLower name := hb 0 (Nat.succ_pos i)
      simp only [findGroup]
      rw [if_neg hg]
      exact ih i (Nat.lt_of_succ_lt_succ h) hm
        (fun j hj => hb (j + 1) (Nat.succ_lt_succ hj))

theorem findGroup_none (name : String) :
    ∀ (gs : List Group), (∀ g ∈ gs, pyLower g.groupName ≠ pyLower name) →
      findGroup name gs = none
  | [], _ => rfl
  | g :: gs, h => by
    simp only [findGroup]
    rw [if_neg (h g (List.mem_cons_self g gs))]
    exact findGroup_none name gs fun g2 hg2 => h g2 (List.mem_cons_of_mem g hg2)

theorem splitOnChar_not_mem (sep : Char) :
    ∀ (b : List Char), sep ∉ b → splitOnChar sep b = [b]
  | [], _ => rfl
  | c :: cs, h => by
    simp only [splitOnChar]
    rw [if_neg fun hc => h (by rw [← hc]; exact List.mem_cons_self c cs),
      splitOnChar_not_mem sep cs fun hm => h (List.mem_cons_of_mem c hm)]

theorem splitOnChar_sandwich (sep : Char) :
    ∀ (a b : List Char), sep ∉ a → sep ∉ b →
      splitOnChar sep (a ++ sep :: b) = [a, b]
  | [], b, _, hb => by
    show splitOnChar sep (sep :: b) = [[], b]
    simp only [splitOnChar, if_true]
    rw [splitOnChar_not_mem sep b hb]
  | c :: a, b, ha, hb => by
    have hrec := splitOnChar_sandwich sep a b (fun hm => ha (List.mem_cons_of_mem c hm)) hb
    show splitOnChar sep (c :: (a ++ sep :: b)) = [c :: a, b]
    simp only [splitOnChar]
    rw [if_neg fun hc => ha (by rw [← hc]; exact List.mem_cons_self c a), hrec]

theorem formatEventDate_eq_none_of_shape (s : String)
    (h : (splitOnChar '-' s.data).length ≠ 2) : formatEventDate s = none := by
  simp only [formatEventDate]
  cases hsp : splitOnChar '-' s.data with
  | nil => rfl
  | cons a t =>
    cases t with
    | nil => rfl
    | cons b t2 =>
      cases t2 with
      | nil => exact absurd (by rw [hsp]; rfl) h
      | cons c t3 => rfl

theorem formatEventDate_eq_none_of_parse (s : String) (dcs rest : List Char)
    (hsp : splitOnChar '-' s.data = [dcs, rest])
    (hp : parseYmdChars dcs = none) : formatEventDate s = none := by
  simp only [formatEventDate]
  rw [hsp]
  show renderYmd (parseYmdChars dcs) = none
  rw [hp]
  rfl

theorem create_user_message_eq (ub : UserBody) (st : Statistics)
    (hst : ub.statistics = some st) :
    create_user_message ub = assembleMessage ub st := by
  simp only [create_user_message]
  rw [hst]

theorem assembleMessage_none_last (ub : UserBody) (st : Statistics)
    (hl : formatEventDate st.last = none) : assembleMessage ub st = none := by
  simp only [assembleMessage]
  rw [hl]

theorem assembleMessage_none_first (ub : UserBody) (st : Statistics) (lf : String)
    (hl : formatEventDate st.last = some lf)
    (hf : formatEventDate st.first = none) : assembleMessage ub st = none := by
  simp only [assembleMessage]
  rw [hl, hf]

theorem assembleMessage_some (ub : UserBody) (st : Statistics) (lf ff : String)
    (hl : formatEventDate st.last = some lf)
    (hf : formatEventDate st.first = some ff) :
    assembleMessage ub st = some (userMessageText ub st lf ff) := by
  simp only [assembleMessage]
  rw [hl, hf]

/-! ## Claims -/

/-- C1: for every username, an HTTP 200 whose body has `success` true but
whose `statistics.userName` does not case-insensitively equal the
requested username, or whose body lacks the `success` flag or the
`statistics` object, makes `fetch_wigle_user_stats` return a not-found
failure dictionary (message `"User not found."` or the invalid-data
variant) and never the payload. -/
theorem fetch_user_stats_mismatch_is_not_found
    (username : String) (ts : Nat) (d : UserBody)
    (h : (d.success = some true ∧
            ∀ st un, d.statistics = some st → st.userName = some un →
              pyLower un ≠ pyLower username)
         ∨ d.success = none ∨ d.statistics = none) :
    ∃ m, fetch_wigle_user_stats username ts (HttpResult.resp 200 d) = .err m
      ∧ (m = "User not found." ∨ m = "Invalid data received or user not found.") := by
  simp only [fetch_wigle_user_stats]
  rw [if_neg (by decide), if_neg (by decide)]
  split
  · rename_i st hs hst
    split
    · rename_i un hun
      rw [if_neg ?_]
      · exact ⟨_, rfl, Or.inl rfl⟩
      · rcases h with ⟨_, hmm⟩ | hnone | hnone
        · exact hmm st un hst hun
        · rw [hs] at hnone
          exact absurd hnone (by simp)
        · rw [hst] at hnone
          exact absurd hnone (by simp)
    · exact ⟨_, rfl, Or.inr rfl⟩
  · exact ⟨_, rfl, Or.inr rfl⟩

/-- Closed instance of the C1 theorem: profile name `bob` returned for
requested user `alice`. -/
theorem fetch_user_stats_mismatch_is_not_found_witness :
    ∃ m, fetch_wigle_user_stats ("alice") 7
        (HttpResult.resp 200
          { success := some true
            statistics := some
              { userName := some ("bob"), prevRank := 1, prevMonthRank := 1
                eventMonthCount := 0, eventPrevMonthCount := 0
                discoveredWiFiGPS := 0, discoveredWiFiGPSPercent := "0.0"
                discoveredWiFi := 0, discoveredCellGPS := 0, discoveredCell := 0
                discoveredBtGPS := 0, discoveredBt := 0, totalWiFiLocations := 0
                last := "20240304-153000", first := "20200101-000000" }
            user := "bob", rank := 3, monthRank := 4, imageBadgeUrl := none })
        = .err m
      ∧ (m = "User not found." ∨ m = "Invalid data received or user not found.") :=
  fetch_user_stats_mismatch_is_not_found ("alice") 7 _
    (Or.inl ⟨rfl, by
      intro st un hst hun
      simp only [Option.some_inj] at hst
      rw [← hst] at hun
      simp only [Option.some_inj] at hun
      rw [← hun]
      decide⟩)

/-- C2: `format_user_rankings` filters out every entry whose status
contains `L` before truncating to ten, so a locked entry never reaches the
displayed slate, and everything displayed is an unlocked entry of the
input. -/
theorem user_rankings_exclude_locked (users : List UserEntry) (g : String)
    (u : UserEntry) (hL : pyIn ("L") u.status = true) :
    u ∉ displayedUsers users
  ∧ (∀ v ∈ displayedUsers users, pyIn ("L") v.status = false ∧ v ∈ users)
  ∧ format_user_rankings users g
      = "**User Rankings for " ++ sq ++ g ++ sq ++ ":**\n"
        ++ String.join (rankLines userLine 1 (displayedUsers users)) := by
  refine ⟨?_, ?_, rfl⟩
  · intro hmem
    have hf : u ∈ users.filter fun v => !pyIn ("L") v.status :=
      List.take_subset 10 _ hmem
    have := (List.mem_filter.mp hf).2
    rw [hL] at this
    exact absurd this (by decide)
  · intro v hv
    have hf : v ∈ users.filter fun w => !pyIn ("L") w.status :=
      List.take_subset 10 _ hv
    have h2 := (List.mem_filter.mp hf).2
    exact ⟨by simpa using h2, (List.mem_filter.mp hf).1⟩

/-- Closed instance of the C2 theorem: the locked leader of a two-entry
group is absent from the displayed slate even though fewer than ten
entries remain. -/
theorem user_rankings_exclude_locked_witness :
    pyIn ("L") exLockedUser.status = true
  ∧ exLockedUser ∉ displayedUsers [exLockedUser, exPlainUser] :=
  ⟨by decide,
   (user_rankings_exclude_locked [exLockedUser, exPlainUser] ("x") exLockedUser (by decide)).1⟩

/-- C3: on a 200 standings body with truthy `success` and a `results`
array, both standings fetches return the body with every `"anonymous"`
entry removed from `results` and all other entries preserved in order. -/
theorem standings_drop_anonymous (b : StandingsBody) (rs : List StandingEntry)
    (hs : b.success = some true) (hr : b.results = some rs) :
    fetch_wigle_alltime_rank (HttpResult.resp 200 b)
        = .ok { b with results := some (dropAnonymous rs) }
  ∧ fetch_wigle_month_rank (HttpResult.resp 200 b)
        = .ok { b with results := some (dropAnonymous rs) }
  ∧ (∀ e ∈ dropAnonymous rs, e.userName ≠ "anonymous")
  ∧ (∀ e ∈ rs, e.userName ≠ "anonymous" → e ∈ dropAnonymous rs)
  ∧ (dropAnonymous rs).Sublist rs := by
  refine ⟨?_, ?_, ?_, ?_, List.filter_sublist rs⟩
  · simp only [fetch_wigle_alltime_rank]
    rw [if_neg (by decide), hs, hr]
  · simp only [fetch_wigle_month_rank]
    rw [if_neg (by decide), hs, hr]
  · intro e he
    exact bne_iff_ne.mp (List.mem_filter.mp he).2
  · intro e he hne
    exact List.mem_filter.mpr ⟨he, bne_iff_ne.mpr hne⟩

/-- Closed instance of the C3 theorem on a two-entry standings body. -/
theorem standings_drop_anonymous_witness :
    fetch_wigle_alltime_rank
        (HttpResult.resp 200 { success := some true, results := some [exAnon, exNamed] })
      = .ok { success := some true, results := some [exNamed] } :=
  by
    have h := standings_drop_anonymous
      { success := some true, results := some [exAnon, exNamed] } [exAnon, exNamed] rfl rfl
    rw [h.1]
    decide

/-- C4: the group and all-time formatters emit the header followed by the
joined rank lines; there are exactly ten rank lines as soon as the list
has ten entries and one per entry otherwise, and line number `i` starts
with the ordinal `i` (1st through 10th). -/
theorem rankings_shape (groups : List Group) (results : List StandingEntry) :
    format_group_rankings groups
        = "**WiGLE Group Rankings:**\n" ++ String.join (groupRankLines groups)
  ∧ (groupRankLines groups).length = min 10 groups.length
  ∧ numberedFrom 1 (groupRankLines groups) = true
  ∧ format_alltime_rankings results
        = "**WiGLE All-Time User Rankings:**\n" ++ String.join (alltimeRankLines results)
  ∧ (alltimeRankLines results).length = min 10 results.length
  ∧ numberedFrom 1 (alltimeRankLines results) = true
  ∧ (List.range 10).map (fun i => ordinal (i + 1))
      = ["1st", "2nd", "3rd", "4th", "5th", "6th", "7th", "8th", "9th", "10th"] := by
  refine ⟨rfl, ?_, ?_, rfl, ?_, ?_, by decide⟩
  · rw [groupRankLines, rankLines_length, List.length_take]
  · exact numberedFrom_rankLines groupLine
      (fun i g => ⟨_, by rw [groupLine, String.append_assoc, String.append_assoc,
        String.append_assoc]⟩) _ 1
  · rw [alltimeRankLines, rankLines_length, List.length_take]
  · exact numberedFrom_rankLines alltimeLine
      (fun i r => ⟨_, by rw [alltimeLine, String.append_assoc, String.append_assoc,
        String.append_assoc]⟩) _ 1

/-- C7 counterexample: `fetch_user_rank` catches a transport failure but
surfaces it as `None`, an absence signal with no message field at all, so
the failure detail is not carried for this operation. -/
theorem fetch_user_rank_exn_no_detail :
    fetch_user_rank (HttpResult.exn ("boom")) = none := rfl

/-- C7 as amended: every fetch operation catches an exception raised
during the request or body parse; the dictionary-returning operations
surface `{"success": False, "message": str(e)}`, while `fetch_user_rank`
surfaces the absence signal `None` (without the detail); none of them lets
the fault propagate. -/
theorem transport_failures_contained (e username name : String) (ts : Nat) :
    fetch_wigle_user_stats username ts (HttpResult.exn e) = .err e
  ∧ fetch_wigle_group_rank (HttpResult.exn e) = .err e
  ∧ fetch_wigle_id name (HttpResult.exn e) = .err e
  ∧ fetch_user_rank (HttpResult.exn e) = none
  ∧ fetch_wigle_alltime_rank (HttpResult.exn e) = .err e
  ∧ fetch_wigle_month_rank (HttpResult.exn e) = .err e :=
  ⟨rfl, rfl, rfl, rfl, rfl, rfl⟩

/-- C5: a prefixed message whose lowercased first token is none of the six
recognized verbs, and likewise the verbs `user` and `userrank` with zero
arguments, drop through the dispatch chain to the single literal
unknown-command reply. -/
theorem unknown_command_reply (env : NetEnv) (body : String) (c : String)
    (args : List String) (rest : List Char)
    (hpre : body.data = '!' :: rest)
    (hparse : pyTokens (trimChars rest) = c :: args)
    (hcase : pyLower c ∉
        (["user", "grouprank", "userrank", "alltime", "monthly", "help"] : List String)
      ∨ ((pyLower c = "user" ∨ pyLower c = "userrank") ∧ args = [])) :
    message_callback env false body = .sent unknownReply := by
  rw [message_callback_cons env '!' rest body hpre, if_pos rfl, hparse]
  show dispatchRun env (pyLower c) args = CallbackResult.sent unknownReply
  rcases hcase with hni | ⟨hv, ha⟩
  · have h1 : ¬(pyLower c = "user" ∧ args ≠ []) := fun hc => hni (by rw [hc.1]; simp)
    have h2 : pyLower c ≠ "grouprank" := fun hc => hni (by rw [hc]; simp)
    have h3 : ¬(pyLower c = "userrank" ∧ args ≠ []) := fun hc => hni (by rw [hc.1]; simp)
    have h4 : pyLower c ≠ "alltime" := fun hc => hni (by rw [hc]; simp)
    have h5 : pyLower c ≠ "monthly" := fun hc => hni (by rw [hc]; simp)
    have h6 : pyLower c ≠ "help" := fun hc => hni (by rw [hc]; simp)
    simp only [dispatchRun, if_neg h1, if_neg h2, if_neg h3, if_neg h4, if_neg h5, if_neg h6]
  · subst ha
    have h1 : ¬(pyLower c = "user" ∧ ([] : List String) ≠ []) := fun hc => hc.2 rfl
    have h3 : ¬(pyLower c = "userrank" ∧ ([] : List String) ≠ []) := fun hc => hc.2 rfl
    rcases hv with hv | hv
    · have h2 : pyLower c ≠ "grouprank" := by rw [hv]; decide
      have h4 : pyLower c ≠ "alltime" := by rw [hv]; decide
      have h5 : pyLower c ≠ "monthly" := by rw [hv]; decide
      have h6 : pyLower c ≠ "help" := by rw [hv]; decide
      simp only [dispatchRun, if_neg h1, if_neg h2, if_neg h3, if_neg h4, if_neg h5, if_neg h6]
    · have h2 : pyLower c ≠ "grouprank" := by rw [hv]; decide
      have h4 : pyLower c ≠ "alltime" := by rw [hv]; decide
      have h5 : pyLower c ≠ "monthly" := by rw [hv]; decide
      have h6 : pyLower c ≠ "help" := by rw [hv]; decide
      simp only [dispatchRun, if_neg h1, if_neg h2, if_neg h3, if_neg h4, if_neg h5, if_neg h6]

/-- Closed instances of the C5 theorem: an unrecognized verb and a
recognized verb with its required argument missing get the same literal
reply. -/
theorem unknown_command_reply_witness :
    message_callback envEx false ("!xyz") = CallbackResult.sent unknownReply
  ∧ message_callback envEx false ("!user") = CallbackResult.sent unknownReply :=
  ⟨unknown_command_reply envEx ("!xyz") ("xyz") [] (['x', 'y', 'z'])
      (by decide) (by decide) (Or.inl (by decide)),
   unknown_command_reply envEx ("!user") ("user") [] (['u', 's', 'e', 'r'])
      (by decide) (by decide) (Or.inr ⟨Or.inl (by decide), rfl⟩)⟩

/-- C6: `fetch_wigle_id` scans the fetched group list in order for a
case-insensitive exact name match; the first match yields the
member-listing URL built from that group's id, and no match yields the
failure message naming the requested group. -/
theorem resolve_group_id_first_match (name : String) (b : GroupBody)
    (hs : b.success = some true) :
    (∀ i (h : i < (b.groups.getD []).length),
        pyLower ((b.groups.getD []).get ⟨i, h⟩).groupName = pyLower name →
        (∀ j (hj : j < i),
            pyLower (((b.groups.getD []).get ⟨j, Nat.lt_trans hj h⟩).groupName)
              ≠ pyLower name) →
        fetch_wigle_id name (HttpResult.resp 200 b)
          = .ok ((b.groups.getD []).get ⟨i, h⟩).groupId
              ("https://api.wigle.net/api/v2/group/groupMembers?groupid="
                ++ ((b.groups.getD []).get ⟨i, h⟩).groupId))
  ∧ ((∀ g ∈ b.groups.getD [], pyLower g.groupName ≠ pyLower name) →
      fetch_wigle_id name (HttpResult.resp 200 b)
        = .err ("No group named " ++ sq ++ name ++ sq ++ " found.")) := by
  constructor
  · intro i h hm hb
    simp only [fetch_wigle_id]
    rw [if_neg (by decide), if_pos hs, findGroup_first name _ i h hm hb]
  · intro hall
    simp only [fetch_wigle_id]
    rw [if_neg (by decide), if_pos hs, findGroup_none name _ hall]

/-- Closed instances of the C6 theorem: the second group is the first
case-insensitive match for `wigle`, and `Gamma` matches nothing. -/
theorem resolve_group_id_first_match_witness :
    fetch_wigle_id ("wigle") (HttpResult.resp 200 exGroupBody)
        = IdResult.ok ("42") ("https://api.wigle.net/api/v2/group/groupMembers?groupid=42")
  ∧ fetch_wigle_id ("Gamma") (HttpResult.resp 200 exGroupBody)
        = IdResult.err ("No group named " ++ sq ++ "Gamma" ++ sq ++ " found.") := by
  constructor
  · have h := (resolve_group_id_first_match ("wigle") exGroupBody rfl).1 1 (by decide)
      (by decide)
      (by
        intro j hj
        have hj0 : j = 0 := Nat.lt_one_iff.mp hj
        subst hj0
        exact (by decide : pyLower exGroupA.groupName ≠ pyLower ("wigle")))
    rw [h]
    rfl
  · have h := (resolve_group_id_first_match ("Gamma") exGroupBody rfl).2 (by decide)
    rw [h]

/-- C9: a message that is the bare prefix, or the prefix followed only by
whitespace, tokenizes to the empty list, and `message_callback` hits the
`parts[0]` lookup on it: an uncaught `IndexError`, not a reply and not a
silent ignore. -/
theorem empty_command_index_error (env : NetEnv) (body : String) (rest : List Char)
    (hpre : body.data = '!' :: rest)
    (hparse : pyTokens (trimChars rest) = []) :
    message_callback env false body = .indexError := by
  rw [message_callback_cons env '!' rest body hpre, if_pos rfl, hparse]

/-- Closed instance of the C9 theorem at the bare prefix message. -/
theorem empty_command_index_error_witness :
    message_callback envEx false ("!") = CallbackResult.indexError :=
  empty_command_index_error envEx ("!") [] (by decide) (by decide)

/-- C8: a date field made of a hyphen-free date portion that `strptime`
accepts, a hyphen, and a hyphen-free time portion is rendered as the long
month-name date alone — the time portion never reaches the output — and
concretely `"20240304-153000"` becomes `"March 04, 2024"`, which is what
the full user-stats message shows (and the raw time digits do not). -/
theorem event_date_reformatted (y m d : Nat) (dcs rest : List Char)
    (hparse : parseYmdChars dcs = some (y, m, d))
    (hd : '-' ∉ dcs) (hr : '-' ∉ rest) :
    formatEventDate (String.mk (dcs ++ '-' :: rest))
        = some (monthName m ++ " " ++ pad2 d ++ ", " ++ toString y)
  ∧ formatEventDate ("20240304-153000") = some ("March 04, 2024")
  ∧ pyIn ("March 04, 2024") ((create_user_message exUserBody).getD ("")) = true
  ∧ pyIn ("153000") ((create_user_message exUserBody).getD ("")) = false := by
  refine ⟨?_, by decide, by decide, by decide⟩
  · simp only [formatEventDate]
    rw [splitOnChar_sandwich '-' dcs rest hd hr]
    show renderYmd (parseYmdChars dcs) = _
    rw [hparse]
    rfl

/-- Closed instance of the C8 theorem at the documented example date. -/
theorem event_date_reformatted_witness :
    formatEventDate (String.mk (("20240304".data) ++ '-' :: ("153000".data)))
      = some (monthName 3 ++ " " ++ pad2 4 ++ ", " ++ toString 2024) :=
  (event_date_reformatted 2024 3 4 (("20240304").data) (("153000").data)
    (by decide) (by decide) (by decide)).1

/-- C10 counterexample: the claim says `create_user_message` raises
whenever a date portion is not a valid `YYYYMMDD` date, but the
seven-character portion `"2024304"` parses (`%m` and `%d` accept single
digits), so the formatter succeeds and the reply is produced. -/
theorem create_user_message_seven_digit_date :
    formatEventDate ("2024304-153000") = some ("March 04, 2024")
  ∧ (create_user_message exUserBodySeven).isSome = true := by
  constructor
  · decide
  · decide

/-- C10 as amended: `create_user_message` raises — and the `user` handler
sends no reply — whenever either date field does not contain exactly one
hyphen, or its date portion is rejected by the `strptime` `%Y%m%d` parse
(four-digit year, one-or-two-digit month and day, full consumption, valid
calendar date; some non-eight-digit portions do parse); when both fields
pass, the full message is produced. -/
theorem create_user_message_date_errors (ub : UserBody) (st : Statistics)
    (hst : ub.statistics = some st) :
    ((splitOnChar '-' st.last.data).length ≠ 2 → create_user_message ub = none)
  ∧ ((splitOnChar '-' st.first.data).length ≠ 2 → create_user_message ub = none)
  ∧ (∀ dcs rest, splitOnChar '-' st.last.data = [dcs, rest] →
      parseYmdChars dcs = none → create_user_message ub = none)
  ∧ (∀ dcs rest, splitOnChar '-' st.first.data = [dcs, rest] →
      parseYmdChars dcs = none → create_user_message ub = none)
  ∧ (∀ lf ff, formatEventDate st.last = some lf → formatEventDate st.first = some ff →
      create_user_message ub = some (userMessageText ub st lf ff))
  ∧ (∀ env uname,
      fetch_wigle_user_stats uname env.ts (env.userStatsResp uname) = FetchDict.ok ub →
      create_user_message ub = none → runUser env uname = CallbackResult.raised) := by
  refine ⟨?_, ?_, ?_, ?_, ?_, ?_⟩
  · intro h
    rw [create_user_message_eq ub st hst]
    exact assembleMessage_none_last ub st (formatEventDate_eq_none_of_shape st.last h)
  · intro h
    rw [create_user_message_eq ub st hst]
    cases hl : formatEventDate st.last with
    | none => exact assembleMessage_none_last ub st hl
    | some lf =>
      exact assembleMessage_none_first ub st lf hl
        (formatEventDate_eq_none_of_shape st.first h)
  · intro dcs rest hsp hp
    rw [create_user_message_eq ub st hst]
    exact assembleMessage_none_last ub st
      (formatEventDate_eq_none_of_parse st.last dcs rest hsp hp)
  · intro dcs rest hsp hp
    rw [create_user_message_eq ub st hst]
    cases hl : formatEventDate st.last with
    | none => exact assembleMessage_none_last ub st hl
    | some lf =>
      exact assembleMessage_none_first ub st lf hl
        (formatEventDate_eq_none_of_parse st.first dcs rest hsp hp)
  · intro lf ff hl hf
    rw [create_user_message_eq ub st hst]
    exact assembleMessage_some ub st lf ff hl hf
  · intro env uname hfetch hc
    simp only [runUser]
    rw [hfetch]
    show (match create_user_message ub with
          | some m => CallbackResult.sent m
          | none => CallbackResult.raised) = CallbackResult.raised
    rw [hc]

/-- Closed instance of the amended C10 theorem: a hyphen-free `last`
field (one split piece) makes the formatter raise. -/
theorem create_user_message_date_errors_witness :
    create_user_message { exUserBody with statistics := some { exStats with last := "20240304" } }
      = none :=
  (create_user_message_date_errors _ _ rfl).1 (by decide)

end WigleBot
